import Mathlib

/-!
Verification model of `src/tgbot.py` (CK / IP-whitelist management bot).

The Python program's pure logic (cookie parsing, preservation test, next-run
arithmetic) is embedded directly; its effectful operations (HTTP calls to the
QingLong panels, the proxy-whitelist service, the cache store, notification
delivery) are embedded as pure functions of an explicit environment describing
the remote responses, and each operation additionally returns the list of
externally visible calls it issued, in program order.  `asyncio.gather` over
independent per-panel tasks is modelled by listing the per-panel traces in
panel-list order; the theorems below about cross-phase ordering use only the
fact that the second `gather` starts after the first one has joined, which is
invariant under any interleaving inside a phase.
-/

namespace Tgbot

/-- Python `str.split(sep)` for a one-character separator `c`
(so `"a;;b".split(';') == ["a", "", "b"]` and `"".split(';') == [""]`). -/
def splitChar (c : Char) : List Char → List (List Char)
  | [] => [[]]
  | x :: t =>
    if x = c then [] :: splitChar c t
    else
      match splitChar c t with
      | [] => [[x]]
      | h :: r => (x :: h) :: r

/-- Python substring containment `pat in s` on character lists. -/
def containsSubList (pat : List Char) : List Char → Bool
  | [] => pat.isEmpty
  | x :: t => pat.isPrefixOf (x :: t) || containsSubList pat t

/-- Scanner for Python `str.replace(pat, repl)`; `fuel` bounds the number of
scanned characters (it is called with the list's length, which suffices because
every step consumes at least one character of the input). -/
def replaceAllAux (pat repl : List Char) : Nat → List Char → List Char
  | _, [] => []
  | 0, l => l
  | fuel + 1, x :: t =>
    if !pat.isEmpty && pat.isPrefixOf (x :: t) then
      repl ++ replaceAllAux pat repl fuel ((x :: t).drop pat.length)
    else
      x :: replaceAllAux pat repl fuel t

/-- Python `str.replace(pat, repl)`: replace all non-overlapping occurrences,
left to right. -/
def replaceAll (pat repl l : List Char) : List Char := replaceAllAux pat repl l.length l

/-- Drop the characters satisfying `p` from both ends (Python `str.strip` family). -/
def stripBoth (p : Char → Bool) (l : List Char) : List Char :=
  ((l.dropWhile p).reverse.dropWhile p).reverse

/-- Python `s.split(';')` on `String`. -/
def pySplitSemi (s : String) : List String := (splitChar ';' s.data).map String.mk

/-- Python `pat in s` on `String`. -/
def pyContains (pat s : String) : Bool := containsSubList pat.data s.data

/-- Python `s.replace(pat, repl)` on `String`. -/
def pyReplace (s pat repl : String) : String := String.mk (replaceAll pat.data repl.data s.data)

/-- Python `s.strip()` (whitespace) on `String`. -/
def pyStrip (s : String) : String := String.mk (stripBoth Char.isWhitespace s.data)

/-- Python `s.strip(';')` on `String`. -/
def pyStripSemi (s : String) : String := String.mk (stripBoth (fun c => c = ';') s.data)

/-- `extract_pt_pin` (tgbot.py 374–380): the first `;`-separated field of the
cookie string containing `"pt_pin="`, stripped of whitespace and with every
`"pt_pin="` occurrence removed; `none` when no field matches (Python `None`). -/
def extract_pt_pin (cookie_str : String) : Option String :=
  match (pySplitSemi cookie_str).find? (fun part => pyContains "pt_pin=" part) with
  | some part => some (pyReplace (pyStrip part) "pt_pin=" "")
  | none => none

/-- `should_preserve_cookie` (tgbot.py 382–391): `false` for a `None` or empty
pin; otherwise membership of the pin in the configured preservation list, each
configured entry being normalized by removing `"pt_pin="` occurrences and
stripping `;` from both ends. -/
def should_preserve_cookie (pt_pin : Option String) (preservedPins : List String) : Bool :=
  match pt_pin with
  | none => false
  | some p =>
    if p = "" then false
    else preservedPins.any (fun pres => pyStripSemi (pyReplace pres "pt_pin=" "") == p)

/-- The preservation test exactly as the reconciler applies it to a raw
identity-key string (tgbot.py 505–506): `should_preserve_cookie(extract_pt_pin(key))`. -/
def isPreserved (identityKey : Option String) (preservedPins : List String) : Bool :=
  should_preserve_cookie (identityKey.bind extract_pt_pin) preservedPins

/-- One raw record of a panel's `/open/envs` response (the fields tgbot.py
reads: `name`, `value`, `remarks`, `status`, and the record id). -/
structure EnvItem where
  name : String
  value : String
  remarks : String
  status : Nat
  id : Nat
deriving DecidableEq

/-- An enabled credential with its annotation, as produced by
`get_enabled_cookies_with_remarks`. -/
structure CookieInfo where
  value : String
  remarks : String
deriving DecidableEq

/-- A credential record of a secondary panel, as produced by `get_all_cookies`:
remote id, raw value, the raw `pt_pin=`-field, and status. -/
structure PanelCookie where
  id : Nat
  value : String
  pt_pin : String
  status : Nat
deriving DecidableEq

/-- One element of the bulk-add request body built by `add_cookies`. -/
structure EnvPayload where
  name : String
  value : String
  remarks : String
deriving DecidableEq

/-- An application-level panel response body: the `code` and `message` fields. -/
structure ApiResp where
  code : Nat
  msg : String
deriving DecidableEq

/-- Externally visible calls a panel-client operation can issue, in program order. -/
inductive Event where
  | authCall (panel : String)
  | envsGet (panel : String)
  | envsDelete (panel : String) (authHeader : String) (ids : List Nat)
  | envsPost (panel : String) (body : List EnvPayload)
  | warn (msg : String)
deriving DecidableEq

/-- `true` exactly on bulk-delete calls. -/
def Event.isDelete : Event → Bool
  | .envsDelete _ _ _ => true
  | _ => false

/-- `true` exactly on bulk-add calls. -/
def Event.isAdd : Event → Bool
  | .envsPost _ _ => true
  | _ => false

/-- The remote world one `QingLongAPI` instance talks to: the token the auth
endpoint yields (`none` = auth failure), and the responses of the three
`/open/envs` operations (`Except.error` = transport failure after retries,
`Except.ok` = a well-formed application response). -/
structure ApiEnv where
  tokenResp : Option String
  envsResp : Except String (List EnvItem)
  deleteResp : Except String ApiResp
  addResp : Except String ApiResp

/-- `QingLongAPI.get_token` (197–213): a cached token is reused; otherwise one
auth call is issued and its result (possibly `none`) becomes the new cached
token.  Returns (issued calls, result = new cached token). -/
def get_token (panel : String) (tok : Option String) (env : ApiEnv) :
    List Event × Option String :=
  match tok with
  | some t => ([], some t)
  | none => ([.authCall panel], env.tokenResp)

/-- `QingLongAPI._request` specialized to `GET /open/envs` (215–230): obtain a
token first; with no token raise `ValueError` (modelled as `Except.error`)
without issuing the request; otherwise issue the request and return the
environment's answer.  Returns (calls, result, new cached token). -/
def request_envs_get (panel : String) (tok : Option String) (env : ApiEnv) :
    List Event × Except String (List EnvItem) × Option String :=
  let gt := get_token panel tok env
  match gt.2 with
  | none => (gt.1, .error ("无法获取" ++ panel ++ "的访问令牌"), none)
  | some t => (gt.1 ++ [.envsGet panel], env.envsResp, some t)

/-- The per-record parsing of `get_enabled_cookies_with_remarks` (252–273):
keep enabled `JD_COOKIE` records whose value has both a `pt_key=` and a
`pt_pin=` field, rebuilding the value as `pt_key.strip();pt_pin.strip();`. -/
def parse_enabled_cookie (it : EnvItem) : Option CookieInfo :=
  if it.status = 0 ∧ it.name = "JD_COOKIE" then
    let parts := pySplitSemi it.value
    let pt_key := (parts.find? (fun part => pyContains "pt_key=" part)).getD ""
    let pt_pin := (parts.find? (fun part => pyContains "pt_pin=" part)).getD ""
    if pt_key ≠ "" ∧ pt_pin ≠ "" then
      some ⟨pyStrip pt_key ++ ";" ++ pyStrip pt_pin ++ ";", it.remarks⟩
    else none
  else none

/-- The pure part of `get_enabled_cookies_with_remarks` over a response body. -/
def enabled_cookies_of_items (items : List EnvItem) : List CookieInfo :=
  items.filterMap parse_enabled_cookie

/-- The per-record parsing of `get_all_cookies` (275–299): keep every
`JD_COOKIE` record (enabled or disabled) whose value has both fields; the
`pt_pin` field is kept stripped but otherwise raw. -/
def parse_all_cookie (it : EnvItem) : Option PanelCookie :=
  if it.name = "JD_COOKIE" then
    let parts := pySplitSemi it.value
    let pt_key := (parts.find? (fun part => pyContains "pt_key=" part)).getD ""
    let pt_pin := ((parts.find? (fun part => pyContains "pt_pin=" part)).map pyStrip).getD ""
    if pt_key ≠ "" ∧ pt_pin ≠ "" then some ⟨it.id, it.value, pt_pin, it.status⟩
    else none
  else none

/-- The pure part of `get_all_cookies` over a response body. -/
def all_cookies_of_items (items : List EnvItem) : List PanelCookie :=
  items.filterMap parse_all_cookie

/-- `QingLongAPI.get_enabled_cookies_with_remarks` (252–273): any exception —
including a transport failure of the listing and the no-token `ValueError` —
is caught inside the method, which logs and returns `[]`. -/
def get_enabled_cookies_with_remarks (panel : String) (tok : Option String) (env : ApiEnv) :
    List Event × List CookieInfo × Option String :=
  match request_envs_get panel tok env with
  | (evs, .error _, st) => (evs, [], st)
  | (evs, .ok items, st) => (evs, enabled_cookies_of_items items, st)

/-- `QingLongAPI.get_all_cookies` (275–299): any exception — including a
transport failure of the listing after retries — is caught inside the method,
which logs and returns `[]`. -/
def get_all_cookies (panel : String) (tok : Option String) (env : ApiEnv) :
    List Event × List PanelCookie × Option String :=
  match request_envs_get panel tok env with
  | (evs, .error _, st) => (evs, [], st)
  | (evs, .ok items, st) => (evs, all_cookies_of_items items, st)

/-- Python `f"Bearer {self.token}"`: `None` prints as the string `"None"`. -/
def pyShowToken : Option String → String
  | none => "None"
  | some t => t

/-- `QingLongAPI.delete_cookies` (301–334): empty input is a no-op success;
otherwise the HTTP DELETE is issued directly (not via `_request`) with header
`Bearer {self.token}` — no token check and no token fetch — and the outcome is
decided by the response (`code == 200`), transport exceptions being caught into
a failure pair.  Returns (issued calls, success, message). -/
def delete_cookies (panel : String) (tok : Option String) (ids : List Nat) (env : ApiEnv) :
    List Event × Bool × String :=
  if ids = [] then ([], true, "没有需要删除的Cookie")
  else
    let ev := Event.envsDelete panel ("Bearer " ++ pyShowToken tok) ids
    match env.deleteResp with
    | .error e => ([ev], false, "删除出错: " ++ e)
    | .ok r =>
      if r.code = 200 then ([ev], true, "成功删除 " ++ toString ids.length ++ " 个Cookie")
      else ([ev], false, "删除失败: " ++ r.msg)

/-- The bulk-add request body `add_cookies` builds: one `JD_COOKIE` env per
credential, annotation (`remarks`) carried over verbatim. -/
def add_payload (cookiesInfo : List CookieInfo) : List EnvPayload :=
  cookiesInfo.map (fun c => ⟨"JD_COOKIE", c.value, c.remarks⟩)

/-- `QingLongAPI.add_cookies` (336–360): empty input is a no-op success;
otherwise the request goes through `_request` (so a missing token raises, is
caught, and no endpoint call is issued) and the outcome is decided by the
response code.  Returns (issued calls, success, message, new cached token). -/
def add_cookies (panel : String) (tok : Option String) (cookiesInfo : List CookieInfo)
    (env : ApiEnv) : List Event × Bool × String × Option String :=
  if cookiesInfo = [] then ([], true, "没有需要添加的Cookie", tok)
  else
    let envs := add_payload cookiesInfo
    let gt := get_token panel tok env
    match gt.2 with
    | none => (gt.1, false, "添加出错: 无法获取" ++ panel ++ "的访问令牌", none)
    | some t =>
      match env.addResp with
      | .error e => (gt.1 ++ [.envsPost panel envs], false, "添加出错: " ++ e, some t)
      | .ok r =>
        if r.code = 200 then
          (gt.1 ++ [.envsPost panel envs], true,
           "成功添加 " ++ toString envs.length ++ " 个Cookie", some t)
        else (gt.1 ++ [.envsPost panel envs], false, "添加失败: " ++ r.msg, some t)

/-- The per-panel outcome record built by `clean_panel` (488–542). -/
structure CleanOutcome where
  name : String
  success : Bool
  message : String
  deleted_count : Nat
deriving DecidableEq

/-- The per-panel outcome record built by `add_cookies_to_panel` (552–566). -/
structure AddOutcome where
  name : String
  success : Bool
  message : String
deriving DecidableEq

/-- The ids `clean_panel` marks for deletion: every record whose extracted
`pt_pin` is not in the preservation list (504–509), in record order. -/
def to_delete_ids (preserved : List String) (cookiesInfo : List PanelCookie) : List Nat :=
  (cookiesInfo.filter
    (fun c => !should_preserve_cookie (extract_pt_pin c.pt_pin) preserved)).map (fun c => c.id)

/-- A secondary panel as the reconciler sees it: its configured name and the
remote world it talks to. -/
structure Panel where
  name : String
  env : ApiEnv

/-- `to_delete_ids` applied to what `get_all_cookies` actually returns for a panel. -/
def panel_to_delete (preserved : List String) (p : Panel) : List Nat :=
  to_delete_ids preserved (get_all_cookies p.name none p.env).2.1

/-- `sync_ck_to_panels.clean_panel` (488–542): list the panel's full credential
set (a fresh client, so the token starts uncached); an empty list short-circuits
to a success outcome; otherwise partition by the preservation test and bulk-
delete the non-preserved ids, converting the delete result into the outcome
record.  All exceptions below this level are already converted to values, so
the surrounding `except` (535–542) is unreachable in the model.
Returns (issued calls, outcome, cached token after the pass). -/
def clean_panel (preserved : List String) (panel : String) (env : ApiEnv) :
    List Event × CleanOutcome × Option String :=
  let fetch := get_all_cookies panel none env
  if fetch.2.1 = [] then (fetch.1, ⟨panel, true, "未发现CK", 0⟩, fetch.2.2)
  else
    let toDelete := to_delete_ids preserved fetch.2.1
    if toDelete = [] then (fetch.1, ⟨panel, true, "没有需要删除的CK", 0⟩, fetch.2.2)
    else
      let del := delete_cookies panel fetch.2.2 toDelete env
      if del.2.1 then
        (fetch.1 ++ del.1,
         ⟨panel, true, "已删除 " ++ toString toDelete.length ++ " 个非保留CK", toDelete.length⟩,
         fetch.2.2)
      else (fetch.1 ++ del.1, ⟨panel, false, "删除失败 - " ++ del.2.2, 0⟩, fetch.2.2)

/-- `sync_ck_to_panels.add_cookies_to_panel` (552–566): push the primary's
credential set (annotations intact) to one panel, reusing the client instance —
hence the token cached during phase 1 — and record the outcome. -/
def add_cookies_to_panel (mainCookies : List CookieInfo) (panel : String)
    (tok : Option String) (env : ApiEnv) : List Event × AddOutcome :=
  let r := add_cookies panel tok mainCookies env
  (r.1, ⟨panel, r.2.1, r.2.2.1⟩)

/-- The remote world of one reconciliation pass: the primary panel's
environment and the configured secondary panels. -/
structure SyncEnv where
  primary : ApiEnv
  panels : List Panel

/-- What one reconciliation pass reports: whether it aborted on an empty
primary set, both phases' per-panel outcomes, and the aggregate delete count. -/
structure SyncResult where
  aborted : Bool
  cleanResults : List CleanOutcome
  addResults : List AddOutcome
  totalDeleted : Nat
deriving DecidableEq

/-- `sync_ck_to_panels` (462–584): fetch the primary's enabled credentials with
annotations; on an empty result log a warning and return having touched no
secondary; otherwise run `clean_panel` on every secondary (first `gather`),
then — only after that join — run `add_cookies_to_panel` on every secondary
with the primary's set (second `gather`), aggregating both phases' outcomes.
Per-panel traces within a phase are listed in panel order. -/
def sync_ck_to_panels (preserved : List String) (senv : SyncEnv) :
    List Event × SyncResult :=
  let main := get_enabled_cookies_with_remarks "主面板" none senv.primary
  if main.2.1 = [] then
    (main.1 ++ [.warn "主青龙面板未获取到有效 CK"], ⟨true, [], [], 0⟩)
  else
    let phase1 := senv.panels.map (fun p => clean_panel preserved p.name p.env)
    let cleanResults := phase1.map (fun r => r.2.1)
    let totalDeleted :=
      ((cleanResults.filter (fun r => r.success)).map (fun r => r.deleted_count)).sum
    let phase2 :=
      (senv.panels.zip (phase1.map (fun r => r.2.2))).map
        (fun pr => add_cookies_to_panel main.2.1 pr.1.name pr.2 pr.1.env)
    ((main.1 ++ (phase1.map (fun r => r.1)).flatten) ++ (phase2.map (fun r => r.1)).flatten,
     ⟨false, cleanResults, phase2.map (fun r => r.2), totalDeleted⟩)

/-- The id lists of the bulk-delete calls of a trace. -/
def deleteIdsOf : Event → Option (List Nat)
  | .envsDelete _ _ ids => some ids
  | _ => none

/-- The request bodies of the bulk-add calls of a trace. -/
def postBodyOf : Event → Option (List EnvPayload)
  | .envsPost _ body => some body
  | _ => none

/-- A primary panel holding credential `A` annotated `"x"` and `B` annotated `"y"`. -/
def demoPrimaryItems : List EnvItem :=
  [⟨"JD_COOKIE", "pt_key=KEYA;pt_pin=pinA;", "x", 0, 101⟩,
   ⟨"JD_COOKIE", "pt_key=KEYB;pt_pin=pinB;", "y", 0, 102⟩]

/-- The primary's remote world for the demo pass. -/
def demoPrimaryEnv : ApiEnv :=
  ⟨some "tokMain", .ok demoPrimaryItems, .ok ⟨200, ""⟩, .ok ⟨200, ""⟩⟩

/-- A secondary holding `A` with a stale secret (id 201) and `C` (id 202). -/
def demoSecondaryItems : List EnvItem :=
  [⟨"JD_COOKIE", "pt_key=STALE;pt_pin=pinA;", "old", 0, 201⟩,
   ⟨"JD_COOKIE", "pt_key=KEYC;pt_pin=pinC;", "c", 1, 202⟩]

/-- The secondary's remote world for the demo pass (all calls succeed). -/
def demoSecondaryEnv : ApiEnv :=
  ⟨some "tokSec", .ok demoSecondaryItems, .ok ⟨200, ""⟩, .ok ⟨200, ""⟩⟩

/-- A preservation set containing `C`'s identity key. -/
def demoPres : List String := ["pt_pin=pinC;"]

/-- The demo reconciliation pass of spec §8: primary `{A@"x", B@"y"}`,
one secondary holding `{A (stale), C}`, `C` preserved. -/
def demoSync : SyncEnv := ⟨demoPrimaryEnv, [⟨"面板2", demoSecondaryEnv⟩]⟩

/-- A sync environment whose primary yields no enabled credentials. -/
def emptyPrimarySync : SyncEnv :=
  ⟨⟨some "tokMain", .ok [], .ok ⟨200, ""⟩, .ok ⟨200, ""⟩⟩, [⟨"面板2", demoSecondaryEnv⟩]⟩

/-- A panel world whose credential-listing call fails at the transport level
after exhausting retries. -/
def listFailEnv : ApiEnv :=
  ⟨some "tok", .error "connect timeout", .ok ⟨200, ""⟩, .ok ⟨200, ""⟩⟩

/-- A panel world for a client instance holding no token and unable to get one
issued, with all endpoint calls succeeding. -/
def noTokenEnv : ApiEnv := ⟨none, .ok [], .ok ⟨200, "ok"⟩, .ok ⟨200, "ok"⟩⟩

/-- A secondary whose bulk-delete call fails at the transport level. -/
def demoFailPanel : Panel :=
  ⟨"面板F", ⟨some "tokF", .ok demoSecondaryItems, .error "read timeout", .ok ⟨200, ""⟩⟩⟩

/-- A secondary whose calls all succeed. -/
def demoOkPanel : Panel := ⟨"面板G", demoSecondaryEnv⟩

/-! ### The IP change-detection job -/

/-- Externally visible steps of `update_ip_whitelist`, in program order. -/
inductive IpEvent where
  | detectIp
  | whitelistAdd (ip : String)
  | whitelistDel (ip : String)
  | warn (msg : String)
  | cacheSet (key value : String)
  | notifySent (title : String)
  | logErr (msg : String)
deriving DecidableEq

/-- The remote world of one `update_ip_whitelist` run: the detected egress IP
(`none` = detection failure), the cached last-known IP, and whether the
whitelist add / delete calls succeed. -/
structure IpEnv where
  currentIp : Option String
  cachedIp : Option String
  addOk : Bool
  delOk : Bool

/-- `update_ip_whitelist` (586–623): detect the egress IP (failure ⇒ warn and
return); unchanged IP ⇒ return; otherwise add the new IP to the whitelist
first; only if that succeeded, delete the old IP if one was cached (a failed
delete only logs a warning), set the cache to the new IP and notify; a failed
add logs an error and leaves the cache untouched.
Returns (steps in program order, final cached IP). -/
def update_ip_whitelist (env : IpEnv) : List IpEvent × Option String :=
  match env.currentIp with
  | none => ([.detectIp, .warn "获取当前IP失败"], env.cachedIp)
  | some cur =>
    if env.cachedIp = some cur then ([.detectIp], env.cachedIp)
    else if env.addOk then
      let delEvs :=
        match env.cachedIp with
        | some old =>
          [IpEvent.whitelistDel old] ++
            (if env.delOk then [] else [IpEvent.warn ("旧IP " ++ old ++ " 删除失败，但不影响使用")])
        | none => []
      ([IpEvent.detectIp, IpEvent.whitelistAdd cur] ++ delEvs ++
        [IpEvent.cacheSet "current_ip" cur, IpEvent.notifySent "IP 白名单已更新"], some cur)
    else ([.detectIp, .whitelistAdd cur, .logErr "新IP添加失败，保留旧IP"], env.cachedIp)

/-- Spec §8's IP scenario: cached `10.0.0.1`, observed `10.0.0.2`, add
succeeds, delete of the old IP fails. -/
def demoIpEnv : IpEnv := ⟨some "10.0.0.2", some "10.0.0.1", true, false⟩

/-! ### The daily scheduler's next-run computation -/

/-- Microseconds per day (`datetime` comparisons are microsecond-exact). -/
def usPerDay : Nat := 86400000000

/-- The target clock time `hour:minute:00.000000` in microseconds since midnight. -/
def targetMicros (hour minute : Nat) : Nat := (hour * 3600 + minute * 60) * 1000000

/-- `schedule_daily_task`'s next-run computation (672–676), on microseconds
since the epoch in the fixed local time zone (whose offset is constant, so
`replace` keeps days aligned): today's occurrence of the target clock time,
rolled forward one day when strictly in the past. -/
def next_run (hour minute now : Nat) : Nat :=
  let nr := now / usPerDay * usPerDay + targetMicros hour minute
  if nr < now then nr + usPerDay else nr

/-! ### The notification sender -/

/-- `notify` (167–184): try the configured recipients in order; the first
successful send returns `True` immediately (remaining recipients are never
attempted); a failed send is logged and the next recipient is tried; `False`
only after every recipient failed.  `ok u` tells whether sending to recipient
`u` succeeds.  Returns (recipients actually attempted, in order, result). -/
def notify (ok : Nat → Bool) : List Nat → List Nat × Bool
  | [] => ([], false)
  | u :: rest =>
    if ok u then ([u], true)
    else
      let r := notify ok rest
      (u :: r.1, r.2)

/-! ## Theorems -/

/-- Token acquisition issues no delete and no add call. -/
theorem get_token_benign (panel : String) (tok : Option String) (env : ApiEnv) :
    ∀ e ∈ (get_token panel tok env).1, e.isDelete = false ∧ e.isAdd = false := by
  intro e he
  cases tok with
  | none => simp [get_token] at he; subst he; exact ⟨rfl, rfl⟩
  | some t => simp [get_token] at he

/-- The `_request`-mediated listing issues no delete and no add call. -/
theorem request_envs_get_benign (panel : String) (tok : Option String) (env : ApiEnv) :
    ∀ e ∈ (request_envs_get panel tok env).1, e.isDelete = false ∧ e.isAdd = false := by
  intro e he
  simp only [request_envs_get] at he
  cases hgt : (get_token panel tok env).2 with
  | none =>
    rw [hgt] at he
    exact get_token_benign panel tok env e he
  | some t =>
    rw [hgt] at he
    rcases List.mem_append.1 he with he | he
    · exact get_token_benign panel tok env e he
    · simp at he; subst he; exact ⟨rfl, rfl⟩

/-- `get_all_cookies` issues no delete and no add call. -/
theorem get_all_cookies_benign (panel : String) (tok : Option String) (env : ApiEnv) :
    ∀ e ∈ (get_all_cookies panel tok env).1, e.isDelete = false ∧ e.isAdd = false := by
  intro e he
  simp only [get_all_cookies] at he
  rcases hr : request_envs_get panel tok env with ⟨evs, r, st⟩
  rw [hr] at he
  have hevs : (request_envs_get panel tok env).1 = evs := by rw [hr]
  cases r <;> simp only at he <;> exact request_envs_get_benign panel tok env e (hevs ▸ he)

/-- `get_enabled_cookies_with_remarks` issues no delete and no add call. -/
theorem get_enabled_benign (panel : String) (tok : Option String) (env : ApiEnv) :
    ∀ e ∈ (get_enabled_cookies_with_remarks panel tok env).1,
      e.isDelete = false ∧ e.isAdd = false := by
  intro e he
  simp only [get_enabled_cookies_with_remarks] at he
  rcases hr : request_envs_get panel tok env with ⟨evs, r, st⟩
  rw [hr] at he
  have hevs : (request_envs_get panel tok env).1 = evs := by rw [hr]
  cases r <;> simp only at he <;> exact request_envs_get_benign panel tok env e (hevs ▸ he)

/-- The calls `delete_cookies` issues: none on empty input, otherwise exactly
the one bulk-delete call. -/
theorem delete_cookies_events (panel : String) (tok : Option String) (ids : List Nat)
    (env : ApiEnv) :
    (delete_cookies panel tok ids env).1 = [] ∨
    (delete_cookies panel tok ids env).1 =
      [Event.envsDelete panel ("Bearer " ++ pyShowToken tok) ids] := by
  by_cases hids : ids = []
  · left; simp [delete_cookies, hids]
  · right
    rcases hr : env.deleteResp with e | r
    · simp [delete_cookies, hids, hr]
    · simp only [delete_cookies, hids, hr, if_neg, ite_false]
      split <;> rfl

/-- `delete_cookies` issues no add call. -/
theorem delete_cookies_not_add (panel : String) (tok : Option String) (ids : List Nat)
    (env : ApiEnv) : ∀ e ∈ (delete_cookies panel tok ids env).1, e.isAdd = false := by
  intro e he
  rcases delete_cookies_events panel tok ids env with h | h <;> rw [h] at he
  · simp at he
  · simp at he; subst he; rfl

/-- Phase 1 (`clean_panel`) issues no add call. -/
theorem clean_panel_not_add (preserved : List String) (panel : String) (env : ApiEnv) :
    ∀ e ∈ (clean_panel preserved panel env).1, e.isAdd = false := by
  intro e he
  simp only [clean_panel] at he
  split at he
  · exact (get_all_cookies_benign panel none env e he).2
  · split at he
    · exact (get_all_cookies_benign panel none env e he).2
    · split at he <;>
        (rcases List.mem_append.1 he with he | he
         · exact (get_all_cookies_benign panel none env e he).2
         · exact delete_cookies_not_add panel _ _ env e he)

/-- The calls `add_cookies` issues: none on empty input; a token fetch only,
when no token can be obtained; otherwise the token fetch followed by exactly
the one bulk-add call. -/
theorem add_cookies_events (panel : String) (tok : Option String)
    (cookies : List CookieInfo) (env : ApiEnv) :
    (add_cookies panel tok cookies env).1 = [] ∨
    (add_cookies panel tok cookies env).1 = (get_token panel tok env).1 ∨
    (add_cookies panel tok cookies env).1 =
      (get_token panel tok env).1 ++ [Event.envsPost panel (add_payload cookies)] := by
  by_cases hc : cookies = []
  · left; simp [add_cookies, hc]
  · rcases hgt : (get_token panel tok env).2 with _ | t
    · right; left
      simp [add_cookies, hc, hgt]
    · right; right
      rcases hr : env.addResp with e | r
      · simp [add_cookies, hc, hgt, hr]
      · simp only [add_cookies, hc, hgt, hr, if_neg, ite_false]
        split <;> rfl

/-- `add_cookies` issues no delete call. -/
theorem add_cookies_not_delete (panel : String) (tok : Option String)
    (cookies : List CookieInfo) (env : ApiEnv) :
    ∀ e ∈ (add_cookies panel tok cookies env).1, e.isDelete = false := by
  intro e he
  rcases add_cookies_events panel tok cookies env with h | h | h <;> rw [h] at he
  · simp at he
  · exact (get_token_benign panel tok env e he).1
  · rcases List.mem_append.1 he with he | he
    · exact (get_token_benign panel tok env e he).1
    · simp at he; subst he; rfl

/-- Phase 2 (`add_cookies_to_panel`) issues no delete call. -/
theorem add_cookies_to_panel_not_delete (mainCookies : List CookieInfo) (panel : String)
    (tok : Option String) (env : ApiEnv) :
    ∀ e ∈ (add_cookies_to_panel mainCookies panel tok env).1, e.isDelete = false := by
  intro e he
  simp only [add_cookies_to_panel] at he
  exact add_cookies_not_delete panel tok mainCookies env e he

/-- An index below the left part of an append points into the left part. -/
theorem get_append_left_mem (P Q : List Event) :
    ∀ (i : Nat) (hi : i < (P ++ Q).length), i < P.length → (P ++ Q).get ⟨i, hi⟩ ∈ P := by
  induction P with
  | nil => intro i hi h; simp at h
  | cons a t ih =>
    intro i hi h
    cases i with
    | zero => simp
    | succ n =>
      have hn : n < (t ++ Q).length := by simpa using Nat.lt_of_succ_lt_succ hi
      have := ih n hn (Nat.lt_of_succ_lt_succ h)
      simpa using Or.inr this

/-- An index at or past the left part of an append points into the right part. -/
theorem get_append_right_mem (P Q : List Event) :
    ∀ (i : Nat) (hi : i < (P ++ Q).length), P.length ≤ i → (P ++ Q).get ⟨i, hi⟩ ∈ Q := by
  induction P with
  | nil => intro i hi _; exact List.get_mem _ _ _
  | cons a t ih =>
    intro i hi h
    cases i with
    | zero => simp at h
    | succ n =>
      have hn : n < (t ++ Q).length := by simpa using Nat.lt_of_succ_lt_succ hi
      simpa using ih n hn (Nat.le_of_succ_le_succ h)

/-- In a trace of the form `P ++ Q` where `P` has no adds and `Q` has no
deletes, every delete strictly precedes every add. -/
theorem deletes_precede_adds_split (T P Q : List Event) (hT : T = P ++ Q)
    (hP : ∀ e ∈ P, e.isAdd = false) (hQ : ∀ e ∈ Q, e.isDelete = false)
    (i j : Nat) (hi : i < T.length) (hj : j < T.length)
    (hdel : (T.get ⟨i, hi⟩).isDelete = true) (hadd : (T.get ⟨j, hj⟩).isAdd = true) :
    i < j := by
  subst hT
  by_cases h1 : i < P.length
  · by_cases h2 : j < P.length
    · have := hP _ (get_append_left_mem P Q j hj h2)
      rw [hadd] at this; exact absurd this (by simp)
    · omega
  · have := hQ _ (get_append_right_mem P Q i hi (Nat.le_of_not_lt h1))
    rw [hdel] at this; exact absurd this (by simp)

/-- A trace that splits into a no-add part followed by a no-delete part has
every delete strictly before every add. -/
theorem deletes_precede_adds_of_split (T : List Event) (i j : Nat)
    (hi : i < T.length) (hj : j < T.length)
    (hdel : (T.get ⟨i, hi⟩).isDelete = true) (hadd : (T.get ⟨j, hj⟩).isAdd = true)
    (h : ∃ P Q, T = P ++ Q ∧ (∀ e ∈ P, e.isAdd = false) ∧ (∀ e ∈ Q, e.isDelete = false)) :
    i < j := by
  rcases h with ⟨P, Q, hT, hP, hQ⟩
  exact deletes_precede_adds_split T P Q hT hP hQ i j hi hj hdel hadd

/-- C2: in every reconciliation pass, every bulk-delete call strictly precedes
every bulk-add call in the pass's trace — phase 2 (adds) starts only after the
phase-1 join, whether the deletes succeeded or failed. -/
theorem sync_deletes_precede_adds (preserved : List String) (senv : SyncEnv)
    (i j : Nat)
    (hi : i < ((sync_ck_to_panels preserved senv).1).length)
    (hj : j < ((sync_ck_to_panels preserved senv).1).length)
    (hdel : (((sync_ck_to_panels preserved senv).1).get ⟨i, hi⟩).isDelete = true)
    (hadd : (((sync_ck_to_panels preserved senv).1).get ⟨j, hj⟩).isAdd = true) :
    i < j := by
  refine deletes_precede_adds_of_split _ i j hi hj hdel hadd ?_
  by_cases hmain : (get_enabled_cookies_with_remarks "主面板" none senv.primary).2.1 = []
  · refine ⟨(get_enabled_cookies_with_remarks "主面板" none senv.primary).1 ++
        [Event.warn "主青龙面板未获取到有效 CK"], [], ?_, ?_, ?_⟩
    · simp [sync_ck_to_panels, hmain]
    · intro e he
      rcases List.mem_append.1 he with he | he
      · exact (get_enabled_benign _ _ _ e he).2
      · simp at he; subst he; rfl
    · intro e he; simp at he
  · refine ⟨(get_enabled_cookies_with_remarks "主面板" none senv.primary).1 ++
        ((senv.panels.map (fun p => clean_panel preserved p.name p.env)).map
          (fun r => r.1)).flatten,
      (((senv.panels.zip
            ((senv.panels.map (fun p => clean_panel preserved p.name p.env)).map
              (fun r => r.2.2))).map
          (fun pr => add_cookies_to_panel
            (get_enabled_cookies_with_remarks "主面板" none senv.primary).2.1
            pr.1.name pr.2 pr.1.env)).map (fun r => r.1)).flatten,
      ?_, ?_, ?_⟩
    · simp [sync_ck_to_panels, hmain]
    · intro e he
      rcases List.mem_append.1 he with he | he
      · exact (get_enabled_benign _ _ _ e he).2
      · rcases List.mem_flatten.1 he with ⟨l, hl, hel⟩
        rcases List.mem_map.1 hl with ⟨r, hr, rfl⟩
        rcases List.mem_map.1 hr with ⟨p, _, rfl⟩
        exact clean_panel_not_add preserved p.name p.env e hel
    · intro e he
      rcases List.mem_flatten.1 he with ⟨l, hl, hel⟩
      rcases List.mem_map.1 hl with ⟨r, hr, rfl⟩
      rcases List.mem_map.1 hr with ⟨pr, _, rfl⟩
      exact add_cookies_to_panel_not_delete _ _ _ _ e hel

/-- C2, witness: in the demo pass the delete call sits at index 4 and the add
call at index 5 of the trace, and the theorem yields `4 < 5`. -/
theorem sync_deletes_precede_adds_witness : 4 < 5 :=
  sync_deletes_precede_adds demoPres demoSync 4 5 (by decide) (by decide)
    (by decide) (by decide)

/-- C3: a reconciliation pass whose primary yields an empty enabled-credential
list aborts — its trace contains no delete and no add call against any panel,
a warning is logged, and the pass returns an aborted result with no per-panel
outcomes. -/
theorem sync_empty_primary_aborts (preserved : List String) (senv : SyncEnv)
    (h : (get_enabled_cookies_with_remarks "主面板" none senv.primary).2.1 = []) :
    (∀ e ∈ (sync_ck_to_panels preserved senv).1, e.isDelete = false ∧ e.isAdd = false) ∧
    Event.warn "主青龙面板未获取到有效 CK" ∈ (sync_ck_to_panels preserved senv).1 ∧
    (sync_ck_to_panels preserved senv).2 = ⟨true, [], [], 0⟩ := by
  have htr : (sync_ck_to_panels preserved senv).1 =
      (get_enabled_cookies_with_remarks "主面板" none senv.primary).1 ++
        [Event.warn "主青龙面板未获取到有效 CK"] := by
    simp [sync_ck_to_panels, h]
  refine ⟨?_, ?_, ?_⟩
  · intro e he
    rw [htr] at he
    rcases List.mem_append.1 he with he | he
    · exact get_enabled_benign _ _ _ e he
    · simp at he; subst he; exact ⟨rfl, rfl⟩
  · rw [htr]; simp
  · simp [sync_ck_to_panels, h]

/-- C3, witness at a concrete pass whose primary yields nothing. -/
theorem sync_empty_primary_aborts_witness :
    (get_enabled_cookies_with_remarks "主面板" none emptyPrimarySync.primary).2.1 = [] ∧
    ((∀ e ∈ (sync_ck_to_panels demoPres emptyPrimarySync).1,
        e.isDelete = false ∧ e.isAdd = false) ∧
      Event.warn "主青龙面板未获取到有效 CK" ∈ (sync_ck_to_panels demoPres emptyPrimarySync).1 ∧
      (sync_ck_to_panels demoPres emptyPrimarySync).2 = ⟨true, [], [], 0⟩) :=
  ⟨by decide, sync_empty_primary_aborts demoPres emptyPrimarySync (by decide)⟩

/-- C4: `isPreserved` normalizes both the identity-key argument (via
`extract_pt_pin`) and each preservation-set entry before the membership test:
with preservation set `{"pt_pin=userA;"}`, `isPreserved("pt_pin=userA;")` is
true, `isPreserved("userB")` is false, and `isPreserved(None, anySet)` is
false. -/
theorem isPreserved_spec_cases :
    isPreserved (some "pt_pin=userA;") ["pt_pin=userA;"] = true ∧
    isPreserved (some "userB") ["pt_pin=userA;"] = false ∧
    ∀ S : List String, isPreserved none S = false := by
  exact ⟨by decide, by decide, fun S => rfl⟩

/-- C1: in the demo reconciliation pass (primary `{A@"x", B@"y"}`, secondary
holding `{A (stale, id 201), C (id 202)}` with `C` preserved) the only delete
call carries exactly A's remote id 201 — not C's 202 — and the only add call
carries exactly `{A, B}` with annotations `"x"` and `"y"` verbatim. -/
theorem sync_demo_delete_and_add_args :
    (sync_ck_to_panels demoPres demoSync).1.filterMap deleteIdsOf = [[201]] ∧
    (sync_ck_to_panels demoPres demoSync).1.filterMap postBodyOf =
      [[⟨"JD_COOKIE", "pt_key=KEYA;pt_pin=pinA;", "x"⟩,
        ⟨"JD_COOKIE", "pt_key=KEYB;pt_pin=pinB;", "y"⟩]] := by
  decide

/-- On nonempty input and a transport failure, `delete_cookies` issues the one
bulk-delete call and returns the caught-exception failure pair. -/
theorem delete_cookies_error_eq (panel : String) (tok : Option String) (ids : List Nat)
    (env : ApiEnv) (emsg : String) (hids : ids ≠ []) (hr : env.deleteResp = Except.error emsg) :
    delete_cookies panel tok ids env =
      ([Event.envsDelete panel ("Bearer " ++ pyShowToken tok) ids], false,
        "删除出错: " ++ emsg) := by
  simp [delete_cookies, hids, hr]

/-- On nonempty input and a code-200 response, `delete_cookies` issues the one
bulk-delete call and reports success with the count. -/
theorem delete_cookies_ok_eq (panel : String) (tok : Option String) (ids : List Nat)
    (env : ApiEnv) (m : String) (hids : ids ≠ []) (hr : env.deleteResp = Except.ok ⟨200, m⟩) :
    delete_cookies panel tok ids env =
      ([Event.envsDelete panel ("Bearer " ++ pyShowToken tok) ids], true,
        "成功删除 " ++ toString ids.length ++ " 个Cookie") := by
  simp [delete_cookies, hids, hr]

/-- `clean_panel` on a panel with credentials to delete whose delete call fails
at the transport level: the outcome is a failure record with deleted count 0
and the caught message. -/
theorem clean_panel_err_eq (preserved : List String) (p : Panel) (emsg : String)
    (hc : (get_all_cookies p.name none p.env).2.1 ≠ [])
    (hd : panel_to_delete preserved p ≠ [])
    (hr : p.env.deleteResp = Except.error emsg) :
    clean_panel preserved p.name p.env =
      ((get_all_cookies p.name none p.env).1 ++
        [Event.envsDelete p.name
          ("Bearer " ++ pyShowToken (get_all_cookies p.name none p.env).2.2)
          (panel_to_delete preserved p)],
       ⟨p.name, false, "删除失败 - " ++ ("删除出错: " ++ emsg), 0⟩,
       (get_all_cookies p.name none p.env).2.2) := by
  rw [panel_to_delete] at hd
  simp only [clean_panel, if_neg hc, if_neg hd,
    delete_cookies_error_eq p.name _ _ p.env emsg hd hr, panel_to_delete]
  simp

/-- `clean_panel` on a panel with credentials to delete whose delete call
returns code 200: the outcome is a success record carrying the real count. -/
theorem clean_panel_ok_eq (preserved : List String) (p : Panel) (m : String)
    (hc : (get_all_cookies p.name none p.env).2.1 ≠ [])
    (hd : panel_to_delete preserved p ≠ [])
    (hr : p.env.deleteResp = Except.ok ⟨200, m⟩) :
    clean_panel preserved p.name p.env =
      ((get_all_cookies p.name none p.env).1 ++
        [Event.envsDelete p.name
          ("Bearer " ++ pyShowToken (get_all_cookies p.name none p.env).2.2)
          (panel_to_delete preserved p)],
       ⟨p.name, true, "已删除 " ++ toString (panel_to_delete preserved p).length ++ " 个非保留CK",
        (panel_to_delete preserved p).length⟩,
       (get_all_cookies p.name none p.env).2.2) := by
  rw [panel_to_delete] at hd
  simp only [clean_panel, if_neg hc, if_neg hd,
    delete_cookies_ok_eq p.name _ _ p.env m hd hr, panel_to_delete]
  simp

/-- C5: a two-panel pass in which the first panel's delete call fails at the
transport level and the second's succeeds — the aggregate outcome records the
failing panel with `success = false`, deleted count 0 and a failure message,
the succeeding panel with its real deleted count; the second panel's delete
call is still issued, and both panels still get an add-phase outcome. -/
theorem sync_delete_failure_isolated (preserved : List String) (prim : ApiEnv)
    (p1 p2 : Panel) (emsg m2 : String)
    (hmain : (get_enabled_cookies_with_remarks "主面板" none prim).2.1 ≠ [])
    (hc1 : (get_all_cookies p1.name none p1.env).2.1 ≠ [])
    (hd1 : panel_to_delete preserved p1 ≠ [])
    (hr1 : p1.env.deleteResp = Except.error emsg)
    (hc2 : (get_all_cookies p2.name none p2.env).2.1 ≠ [])
    (hd2 : panel_to_delete preserved p2 ≠ [])
    (hr2 : p2.env.deleteResp = Except.ok ⟨200, m2⟩) :
    (sync_ck_to_panels preserved ⟨prim, [p1, p2]⟩).2.cleanResults =
      [⟨p1.name, false, "删除失败 - " ++ ("删除出错: " ++ emsg), 0⟩,
       ⟨p2.name, true,
        "已删除 " ++ toString (panel_to_delete preserved p2).length ++ " 个非保留CK",
        (panel_to_delete preserved p2).length⟩] ∧
    (sync_ck_to_panels preserved ⟨prim, [p1, p2]⟩).2.totalDeleted =
      (panel_to_delete preserved p2).length ∧
    Event.envsDelete p2.name
        ("Bearer " ++ pyShowToken (get_all_cookies p2.name none p2.env).2.2)
        (panel_to_delete preserved p2) ∈ (sync_ck_to_panels preserved ⟨prim, [p1, p2]⟩).1 ∧
    (sync_ck_to_panels preserved ⟨prim, [p1, p2]⟩).2.addResults.map AddOutcome.name =
      [p1.name, p2.name] := by
  have h1 := clean_panel_err_eq preserved p1 emsg hc1 hd1 hr1
  have h2 := clean_panel_ok_eq preserved p2 m2 hc2 hd2 hr2
  refine ⟨?_, ?_, ?_, ?_⟩
  · simp [sync_ck_to_panels, hmain, h1, h2]
  · simp [sync_ck_to_panels, hmain, h1, h2]
  · simp [sync_ck_to_panels, hmain, h1, h2]
  · simp [sync_ck_to_panels, hmain, h1, h2, add_cookies_to_panel]

/-- C5, witness: a concrete pass with one transport-failing and one succeeding
secondary. -/
theorem sync_delete_failure_isolated_witness :
    (get_enabled_cookies_with_remarks "主面板" none demoPrimaryEnv).2.1 ≠ [] ∧
    (get_all_cookies demoFailPanel.name none demoFailPanel.env).2.1 ≠ [] ∧
    panel_to_delete demoPres demoFailPanel ≠ [] ∧
    demoFailPanel.env.deleteResp = Except.error "read timeout" ∧
    (get_all_cookies demoOkPanel.name none demoOkPanel.env).2.1 ≠ [] ∧
    panel_to_delete demoPres demoOkPanel ≠ [] ∧
    demoOkPanel.env.deleteResp = Except.ok ⟨200, ""⟩ ∧
    ((sync_ck_to_panels demoPres ⟨demoPrimaryEnv, [demoFailPanel, demoOkPanel]⟩).2.cleanResults =
      [⟨demoFailPanel.name, false, "删除失败 - " ++ ("删除出错: " ++ "read timeout"), 0⟩,
       ⟨demoOkPanel.name, true,
        "已删除 " ++ toString (panel_to_delete demoPres demoOkPanel).length ++ " 个非保留CK",
        (panel_to_delete demoPres demoOkPanel).length⟩] ∧
      (sync_ck_to_panels demoPres ⟨demoPrimaryEnv, [demoFailPanel, demoOkPanel]⟩).2.totalDeleted =
        (panel_to_delete demoPres demoOkPanel).length ∧
      Event.envsDelete demoOkPanel.name
          ("Bearer " ++ pyShowToken (get_all_cookies demoOkPanel.name none demoOkPanel.env).2.2)
          (panel_to_delete demoPres demoOkPanel) ∈
        (sync_ck_to_panels demoPres ⟨demoPrimaryEnv, [demoFailPanel, demoOkPanel]⟩).1 ∧
      (sync_ck_to_panels demoPres
          ⟨demoPrimaryEnv, [demoFailPanel, demoOkPanel]⟩).2.addResults.map AddOutcome.name =
        [demoFailPanel.name, demoOkPanel.name]) :=
  ⟨by decide, by decide, by decide, rfl, by decide, by decide, rfl,
    sync_delete_failure_isolated demoPres demoPrimaryEnv demoFailPanel demoOkPanel
      "read timeout" "" (by decide) (by decide) (by decide) rfl (by decide) (by decide) rfl⟩

/-- C6 counterexample: when the listing call fails at the transport level,
`get_all_cookies` swallows the error and returns `[]`, and the panel's outcome
record for the pass has `success = true` (message `未发现CK`) — not
`success = false` as the claim states. -/
theorem list_failure_reported_success_cx :
    (get_all_cookies "面板X" none listFailEnv).2.1 = [] ∧
    (clean_panel demoPres "面板X" listFailEnv).2.1 =
      ⟨"面板X", true, "未发现CK", 0⟩ := by
  decide

/-- C6 amended: a transport failure of the listing call is caught inside
`get_all_cookies` itself (logged, `[]` returned) rather than propagated; the
panel's outcome record then reports `success = true` with message `未发现CK`
and deleted count 0, and no delete call is issued against that panel. -/
theorem list_failure_swallowed (preserved : List String) (panel : String)
    (env : ApiEnv) (emsg : String) (h : env.envsResp = Except.error emsg) :
    (get_all_cookies panel none env).2.1 = [] ∧
    (clean_panel preserved panel env).2.1 = ⟨panel, true, "未发现CK", 0⟩ ∧
    ∀ e ∈ (clean_panel preserved panel env).1, e.isDelete = false := by
  have hnil : (get_all_cookies panel none env).2.1 = [] := by
    cases htok : env.tokenResp <;>
      simp [get_all_cookies, request_envs_get, get_token, htok, h]
  have hev : ∀ e ∈ (get_all_cookies panel none env).1, e.isDelete = false := by
    intro e he
    cases htok : env.tokenResp <;>
      simp [get_all_cookies, request_envs_get, get_token, htok, h] at he
    · subst he; rfl
    · rcases he with he | he <;> subst he <;> rfl
  refine ⟨hnil, ?_, ?_⟩
  · simp [clean_panel, hnil]
  · intro e he
    simp only [clean_panel, hnil, if_pos] at he
    exact hev e he

/-- C6 amended, witness at a concrete failing listing. -/
theorem list_failure_swallowed_witness :
    listFailEnv.envsResp = Except.error "connect timeout" ∧
    ((get_all_cookies "面板X" none listFailEnv).2.1 = [] ∧
      (clean_panel demoPres "面板X" listFailEnv).2.1 = ⟨"面板X", true, "未发现CK", 0⟩ ∧
      ∀ e ∈ (clean_panel demoPres "面板X" listFailEnv).1, e.isDelete = false) :=
  ⟨rfl, list_failure_swallowed demoPres "面板X" listFailEnv "connect timeout" rfl⟩

/-- C7 counterexample: `delete_cookies` on a client holding no access token
does not fail fast — it issues the HTTP DELETE anyway, with authorization
header `Bearer None`, and even reports success. -/
theorem delete_tokenless_issues_call_cx :
    (delete_cookies "面板" none [7] noTokenEnv).1 =
      [Event.envsDelete "面板" "Bearer None" [7]] ∧
    (delete_cookies "面板" none [7] noTokenEnv).2.1 = true := by
  decide

/-- C7 amended: panel operations routed through `_request` (listing, bulk add)
do fail fast when the client holds no token and none can be obtained — they
raise before issuing the endpoint call; bulk delete, however, performs no token
check at all and issues the HTTP DELETE with header `Bearer None`. -/
theorem tokenless_calls_behavior (panel : String) (env : ApiEnv) (ids : List Nat)
    (cookies : List CookieInfo) (htok : env.tokenResp = none)
    (hids : ids ≠ []) (hcookies : cookies ≠ []) :
    ((request_envs_get panel none env).1 = [Event.authCall panel] ∧
      (request_envs_get panel none env).2.1 =
        Except.error ("无法获取" ++ panel ++ "的访问令牌")) ∧
    ((add_cookies panel none cookies env).1 = [Event.authCall panel] ∧
      (add_cookies panel none cookies env).2.1 = false) ∧
    (delete_cookies panel none ids env).1 =
      [Event.envsDelete panel "Bearer None" ids] := by
  refine ⟨?_, ?_, ?_⟩
  · simp [request_envs_get, get_token, htok]
  · simp [add_cookies, get_token, htok, hcookies]
  · rcases hresp : env.deleteResp with e | r <;>
      simp [delete_cookies, hids, hresp, pyShowToken] <;>
      split <;> simp

/-- C7 amended, witness at a concrete tokenless client. -/
theorem tokenless_calls_behavior_witness :
    noTokenEnv.tokenResp = none ∧ ([7] : List Nat) ≠ [] ∧
    ([⟨"v", "r"⟩] : List CookieInfo) ≠ [] ∧
    (((request_envs_get "面板" none noTokenEnv).1 = [Event.authCall "面板"] ∧
      (request_envs_get "面板" none noTokenEnv).2.1 =
        Except.error ("无法获取" ++ "面板" ++ "的访问令牌")) ∧
    ((add_cookies "面板" none [⟨"v", "r"⟩] noTokenEnv).1 = [Event.authCall "面板"] ∧
      (add_cookies "面板" none [⟨"v", "r"⟩] noTokenEnv).2.1 = false) ∧
    (delete_cookies "面板" none [7] noTokenEnv).1 =
      [Event.envsDelete "面板" "Bearer None" [7]]) :=
  ⟨rfl, by decide, by decide,
    tokenless_calls_behavior "面板" noTokenEnv [7] [⟨"v", "r"⟩] rfl (by decide) (by decide)⟩

/-- C8: when the observed egress IP differs from the cached one, the new IP is
added to the whitelist first; the cache is updated to the new IP iff the
addition succeeded (a failed addition leaves it unchanged and writes no cache
entry); and a failed removal of the old IP is logged as a warning but neither
prevents the cache update nor rolls back the addition. -/
theorem update_ip_whitelist_spec (env : IpEnv) (cur old : String)
    (hcur : env.currentIp = some cur) (hold : env.cachedIp = some old) (hne : old ≠ cur) :
    ((update_ip_whitelist env).2 = some cur ↔ env.addOk = true) ∧
    (env.addOk = false → (update_ip_whitelist env).2 = some old ∧
      IpEvent.cacheSet "current_ip" cur ∉ (update_ip_whitelist env).1) ∧
    (env.addOk = true → env.delOk = true →
      (update_ip_whitelist env).1 =
        [IpEvent.detectIp, IpEvent.whitelistAdd cur, IpEvent.whitelistDel old,
         IpEvent.cacheSet "current_ip" cur, IpEvent.notifySent "IP 白名单已更新"] ∧
      (update_ip_whitelist env).2 = some cur) ∧
    (env.addOk = true → env.delOk = false →
      (update_ip_whitelist env).1 =
        [IpEvent.detectIp, IpEvent.whitelistAdd cur, IpEvent.whitelistDel old,
         IpEvent.warn ("旧IP " ++ old ++ " 删除失败，但不影响使用"),
         IpEvent.cacheSet "current_ip" cur, IpEvent.notifySent "IP 白名单已更新"] ∧
      (update_ip_whitelist env).2 = some cur) := by
  have hne' : ¬ env.cachedIp = some cur := by rw [hold]; simp [hne]
  cases hadd : env.addOk <;> cases hdel : env.delOk <;>
    simp [update_ip_whitelist, hcur, hold, hne', hadd, hdel, hne]

/-- C8, witness at spec §8's concrete scenario (add succeeds, delete fails):
the cache moves to `10.0.0.2` and the warning is logged. -/
theorem update_ip_whitelist_spec_witness :
    demoIpEnv.currentIp = some "10.0.0.2" ∧ demoIpEnv.cachedIp = some "10.0.0.1" ∧
    ("10.0.0.1" : String) ≠ "10.0.0.2" ∧
    (((update_ip_whitelist demoIpEnv).2 = some "10.0.0.2" ↔ demoIpEnv.addOk = true) ∧
      (demoIpEnv.addOk = false → (update_ip_whitelist demoIpEnv).2 = some "10.0.0.1" ∧
        IpEvent.cacheSet "current_ip" "10.0.0.2" ∉ (update_ip_whitelist demoIpEnv).1) ∧
      (demoIpEnv.addOk = true → demoIpEnv.delOk = true →
        (update_ip_whitelist demoIpEnv).1 =
          [IpEvent.detectIp, IpEvent.whitelistAdd "10.0.0.2", IpEvent.whitelistDel "10.0.0.1",
           IpEvent.cacheSet "current_ip" "10.0.0.2", IpEvent.notifySent "IP 白名单已更新"] ∧
        (update_ip_whitelist demoIpEnv).2 = some "10.0.0.2") ∧
      (demoIpEnv.addOk = true → demoIpEnv.delOk = false →
        (update_ip_whitelist demoIpEnv).1 =
          [IpEvent.detectIp, IpEvent.whitelistAdd "10.0.0.2", IpEvent.whitelistDel "10.0.0.1",
           IpEvent.warn ("旧IP " ++ "10.0.0.1" ++ " 删除失败，但不影响使用"),
           IpEvent.cacheSet "current_ip" "10.0.0.2", IpEvent.notifySent "IP 白名单已更新"] ∧
        (update_ip_whitelist demoIpEnv).2 = some "10.0.0.2")) :=
  ⟨rfl, rfl, by decide,
    update_ip_whitelist_spec demoIpEnv "10.0.0.2" "10.0.0.1" rfl rfl (by decide)⟩

/-- C9: for every current time and every target `hour:minute`, the daily
scheduler's next-run timestamp is never in the past, and when today's
occurrence has already passed, the next run is that clock time on the
following day. -/
theorem next_run_never_past (hour minute now : Nat) (hh : hour < 24) (hm : minute < 60) :
    now ≤ next_run hour minute now ∧
    (now / usPerDay * usPerDay + targetMicros hour minute < now →
      next_run hour minute now % usPerDay = targetMicros hour minute ∧
      next_run hour minute now / usPerDay = now / usPerDay + 1) := by
  simp only [next_run, targetMicros, usPerDay] at *
  split <;> omega

/-- C9, witness at `00:00` with the current time one microsecond past it. -/
theorem next_run_never_past_witness :
    0 < 24 ∧ 0 < 60 ∧
    (1 ≤ next_run 0 0 1 ∧
      (1 / usPerDay * usPerDay + targetMicros 0 0 < 1 →
        next_run 0 0 1 % usPerDay = targetMicros 0 0 ∧
        next_run 0 0 1 / usPerDay = 1 / usPerDay + 1)) :=
  ⟨by decide, by decide, next_run_never_past 0 0 1 (by decide) (by decide)⟩

/-- C10: `notify` returns true exactly when some configured recipient's send
succeeds; the recipients it attempts are the failing prefix plus at most the
first succeeding one (the rest are never attempted); and at most one attempted
recipient receives the message. -/
theorem notify_first_success_stops (ok : Nat → Bool) (users : List Nat) :
    (notify ok users).2 = users.any ok ∧
    (notify ok users).1 =
      users.takeWhile (fun u => !ok u) ++ (users.dropWhile (fun u => !ok u)).take 1 ∧
    (notify ok users).1.countP (fun u => ok u) ≤ 1 := by
  induction users with
  | nil => simp [notify]
  | cons u rest ih =>
    obtain ⟨ih1, ih2, ih3⟩ := ih
    by_cases h : ok u = true
    · simp [notify, h]
    · simp only [Bool.not_eq_true] at h
      refine ⟨?_, ?_, ?_⟩
      · simp [notify, h, ih1]
      · simp [notify, h, ih2]
      · simp only [notify, h, Bool.false_eq_true, if_false, List.countP_cons]
        simpa [h] using ih3

end Tgbot
